import Mathlib

/-!
Shallow embedding of the doccura retrieval pipeline.

Source files embedded here:
* `src/core/vector-db.ts` — `ChromaVectorDB.search` (threshold filtering, the
  low-threshold second pass, sorting, truncation, the collection-handle cache guard);
* `src/ollama/rag-chat.ts` — `RAGChat.query`, `RAGChat.queryStream` (tiered
  threshold-fallback retrieval, the canonical no-results answer, prompt assembly,
  `RAGChat.formatContext`);
* `src/core/embeddings.ts` — `LocalEmbeddingService.generateQueryEmbedding`,
  `LocalEmbeddingService.generateEmbeddings` (the in-memory embedding cache and the
  batch loop), and the `initialize` control flow as a small cooperative-step machine.

Modeling conventions: JavaScript numbers carrying similarity scores, distances and
thresholds are modeled as `ℚ`; external collaborators (the Chroma store, the Ollama
generation backend, the embedding backend, the personality provider) are parameters;
`Promise`-valued functions are modeled as pure functions returning their resolved
values, and the cooperative interleaving of `initialize` is made explicit as a step
machine.  Wall-clock fields (`processingTime`) and console logging are not modeled.
-/

/-- Embedding vector: the repository represents embeddings as JavaScript number
arrays (`number[]`). -/
abbrev Vec := List ℚ

/-- Metadata fields of one entry of a Chroma query response
(`results.metadatas[0][i]` in vector-db.ts); every field may be absent. -/
structure RowMeta where
  source : Option String
  page : Option Int
  chunkIndex : Option Int
  totalChunks : Option Int
  documentType : Option String
  title : Option String
  fileSize : Option Int
  fileName : Option String
deriving DecidableEq

/-- One row of a Chroma query response.  The source reads the parallel arrays
`ids[0] / documents[0] / metadatas[0] / distances[0]` index by index with
`|| default` fallbacks; the aligned rows are modeled as one list. -/
structure ChromaRow where
  id : String
  document : Option String
  meta : Option RowMeta
  distance : Option ℚ
deriving DecidableEq

/-- `DocumentChunk['metadata']` of types/index.ts, as built by
`ChromaVectorDB.search` for a `SearchResult`. -/
structure ChunkMetadata where
  source : String
  page : Option Int
  chunkIndex : Int
  totalChunks : Int
  documentType : Option String
  title : Option String
  fileSize : Option Int
  fileName : Option String
deriving DecidableEq

/-- `SearchResult` of types/index.ts. -/
structure SearchResult where
  content : String
  score : ℚ
  metadata : ChunkMetadata
deriving DecidableEq

/-- Conversion of one Chroma row to a `SearchResult` (vector-db.ts lines 201-222):
`similarity = 1 - (distances[i] || 0)`, `content = documents[i] || ''`, and the
metadata fields with their `|| 0` / `|| ''` defaults (`documentType`, `title`,
`fileSize`, `fileName` are copied without a default). -/
def mkSearchResult (row : ChromaRow) : SearchResult :=
  { content := row.document.getD ""
    score := 1 - (row.distance.getD 0)
    metadata :=
      { source := (row.meta.bind RowMeta.source).getD ""
        page := some ((row.meta.bind RowMeta.page).getD 0)
        chunkIndex := (row.meta.bind RowMeta.chunkIndex).getD 0
        totalChunks := (row.meta.bind RowMeta.totalChunks).getD 0
        documentType := row.meta.bind RowMeta.documentType
        title := row.meta.bind RowMeta.title
        fileSize := row.meta.bind RowMeta.fileSize
        fileName := row.meta.bind RowMeta.fileName } }

/-- The comparator of the final sort in `ChromaVectorDB.search`
(`(a, b) => b.score - a.score`): descending by score. -/
def scoreGe (a b : SearchResult) : Prop := b.score ≤ a.score

instance : DecidableRel scoreGe :=
  fun a b => inferInstanceAs (Decidable (b.score ≤ a.score))

instance : IsTotal SearchResult scoreGe := ⟨fun a b => le_total b.score a.score⟩

instance : IsTrans SearchResult scoreGe := ⟨fun _ _ _ h1 h2 => le_trans h2 h1⟩

/-- First filtering pass of `ChromaVectorDB.search` (vector-db.ts lines 201-224):
keep the rows whose similarity clears the threshold (`similarity >= threshold`). -/
def searchPass1 (threshold : ℚ) (rows : List ChromaRow) : List SearchResult :=
  rows.filterMap fun row =>
    let r := mkSearchResult row
    if threshold ≤ r.score then some r else none

/-- Second pass of `ChromaVectorDB.search` (vector-db.ts lines 238-263), reached when
the first pass kept nothing and `threshold <= 0.1`: iterate the first
`min(ids.length, limit * 10)` rows and keep a row when `threshold === 0` or its
similarity clears the threshold. -/
def searchPass2 (threshold : ℚ) (limit : ℕ) (rows : List ChromaRow) : List SearchResult :=
  (rows.take (limit * 10)).filterMap fun row =>
    let r := mkSearchResult row
    if threshold = 0 ∨ threshold ≤ r.score then some r else none

/-- Body of `ChromaVectorDB.search` applied to the rows the store returned
(vector-db.ts lines 188-267): filter, optionally run the second pass, sort by score
descending (stable sort, as JavaScript `Array.prototype.sort`), truncate to `limit`.
An empty or missing response gives `[]`, as in the early return of lines 188-190. -/
def searchBody (rows : List ChromaRow) (limit : ℕ) (threshold : ℚ) : List SearchResult :=
  let pass1 := searchPass1 threshold rows
  let results :=
    if pass1.isEmpty ∧ threshold ≤ 0.1 then searchPass2 threshold limit rows else pass1
  (List.insertionSort scoreGe results).take limit

/-- `ChromaVectorDB.search` (vector-db.ts lines 166-273).  `collections` is the
in-memory collection-handle cache (the keys of `this.collections`); `store n` is the
store's response to a query with `nResults = n` (the source passes
`nResults = limit * 2`).  Besides the results, the second component records the
`nResults` values of the store queries issued ( `[]` = the store was never
contacted, as in the early return of lines 175-177). -/
def ChromaVectorDB.search (collections : List String) (collectionName : String)
    (store : ℕ → List ChromaRow) (limit : ℕ) (threshold : ℚ) :
    List SearchResult × List ℕ :=
  if collectionName ∈ collections then
    (searchBody (store (limit * 2)) limit threshold, [limit * 2])
  else ([], [])

/-- The `rag` part of the configuration (config/index.ts), restricted to the two
fields the retrieval pipeline reads. -/
structure RagConfig where
  maxResults : ℕ
  similarityThreshold : ℚ
deriving DecidableEq

/-- `QueryRequest` of types/index.ts; `limit` and `threshold` are optional. -/
structure QueryRequest where
  question : String
  collection : String
  limit : Option ℕ
  threshold : Option ℚ
deriving DecidableEq

/-- `QueryResponse` of types/index.ts without the wall-clock `processingTime`
field (not modeled). -/
structure QueryResponse where
  answer : String
  sources : List SearchResult
deriving DecidableEq

/-- JavaScript `x || d` on an optional rational: `undefined` and `0` are falsy. -/
def jsOrQ (x : Option ℚ) (d : ℚ) : ℚ :=
  match x with
  | none => d
  | some t => if t = 0 then d else t

/-- JavaScript `x || d` on an optional count: `undefined` and `0` are falsy. -/
def jsOrNat (x : Option ℕ) (d : ℕ) : ℕ :=
  match x with
  | none => d
  | some n => if n = 0 then d else n

/-- Canonical no-results answer (rag-chat.ts lines 43 and 139). -/
def noResultsMsg : String :=
  "I could not find relevant information in the available documents. Try rephrasing your question or be more specific."

/-- JavaScript `Array.prototype.join(sep)`. -/
def joinSep (sep : String) : List String → String
  | [] => ""
  | [x] => x
  | x :: xs => x ++ sep ++ joinSep sep xs

/-- `RAGChat.formatContext` (rag-chat.ts lines 181-189): one block per result,
`[Source i: source, Page page]` on the first line (`source || 'Unknown document'`,
`page || 0`) followed by the content, blocks joined with `\n\n---\n\n`. -/
def RAGChat.formatContext (results : List SearchResult) : String :=
  joinSep "\n\n---\n\n" (results.enum.map fun p =>
    "[Source " ++ toString (p.1 + 1) ++ ": " ++
      (if p.2.metadata.source = "" then "Unknown document" else p.2.metadata.source) ++
      ", Page " ++ toString (p.2.metadata.page.getD 0) ++ "]\n" ++ p.2.content)

/-- The user prompt template of rag-chat.ts lines 61-66 (and identically 155-160). -/
def buildUserPrompt (context question : String) : String :=
  "Context from documents:\n" ++ context ++ "\n\nQuestion: " ++ question ++
    "\n\nAnswer the question using only the information from the context above."

/-- Retrieval part of `RAGChat.query` (rag-chat.ts lines 24-53): a first search with
`threshold || min(config.rag.similarityThreshold, 0.2)` and limit
`(limit || maxResults) * 2`, on zero results a fallback search with threshold `0.1`
and limit `limit || maxResults`; `none` when both yield nothing.  The second
component records the `(limit, threshold)` arguments of the `vectorDb.search` calls
issued, in order. -/
def ragSearchSingle (collections : List String) (store : ℕ → List ChromaRow)
    (cfg : RagConfig) (req : QueryRequest) :
    Option (List SearchResult) × List (ℕ × ℚ) :=
  let lim := jsOrNat req.limit cfg.maxResults
  let searchThreshold := jsOrQ req.threshold (min cfg.similarityThreshold 0.2)
  let t1 := (ChromaVectorDB.search collections req.collection store (lim * 2) searchThreshold).1
  if t1.isEmpty then
    let t2 := (ChromaVectorDB.search collections req.collection store lim 0.1).1
    if t2.isEmpty then
      (none, [(lim * 2, searchThreshold), (lim, 0.1)])
    else
      (some (t2.take lim), [(lim * 2, searchThreshold), (lim, 0.1)])
  else
    (some (t1.take lim), [(lim * 2, searchThreshold)])

/-- `RAGChat.query` (rag-chat.ts lines 12-90).  `gen system user` models
`ollamaClient.chat` on the two-message conversation; `sysPrompt` models
`getRAGPersonality()`.  When both retrieval tiers are empty the canonical
no-results response is returned with no generator call. -/
def RAGChat.query (gen : String → String → String) (sysPrompt : String)
    (collections : List String) (store : ℕ → List ChromaRow)
    (cfg : RagConfig) (req : QueryRequest) : QueryResponse :=
  match (ragSearchSingle collections store cfg req).1 with
  | none => { answer := noResultsMsg, sources := [] }
  | some results =>
      { answer := gen sysPrompt (buildUserPrompt (RAGChat.formatContext results) req.question)
        sources := results }

/-- Retrieval part of `RAGChat.queryStream` (rag-chat.ts lines 104-147): a first
search with `threshold || 0.1` and limit `(limit || maxResults) * 5`; on zero
results a second search with threshold `0.05` and limit `(limit || maxResults) * 10`
truncated to `limit || maxResults`; on zero results a last-resort search with
threshold `0` and limit `limit || maxResults`; `none` when all three yield
nothing.  The first tier's results are used untruncated. -/
def ragSearchStream (collections : List String) (store : ℕ → List ChromaRow)
    (cfg : RagConfig) (req : QueryRequest) : Option (List SearchResult) :=
  let lim := jsOrNat req.limit cfg.maxResults
  let searchThreshold := jsOrQ req.threshold 0.1
  let t1 := (ChromaVectorDB.search collections req.collection store (lim * 5) searchThreshold).1
  if t1.isEmpty then
    let t2 := (ChromaVectorDB.search collections req.collection store (lim * 10) 0.05).1
    if t2.isEmpty then
      let t3 := (ChromaVectorDB.search collections req.collection store lim 0).1
      if t3.isEmpty then none else some t3
    else some (t2.take lim)
  else some t1

/-- `RAGChat.queryStream` (rag-chat.ts lines 95-176) as the list of yielded
fragments; `genStream system user` models the fragment sequence of
`ollamaClient.chatStream`.  When every tier is empty, exactly the canonical
no-results message is yielded and the generator is never called. -/
def RAGChat.queryStream (genStream : String → String → List String) (sysPrompt : String)
    (collections : List String) (store : ℕ → List ChromaRow)
    (cfg : RagConfig) (req : QueryRequest) : List String :=
  match ragSearchStream collections store cfg req with
  | none => [noResultsMsg]
  | some results =>
      genStream sysPrompt (buildUserPrompt (RAGChat.formatContext results) req.question)

/-- The in-memory embedding cache (embeddings.ts line 4), as a lookup function. -/
def EmbedCache := String → Option Vec

/-- `embeddingCache.set text v` (embeddings.ts lines 67 and 112). -/
def cacheSet (c : EmbedCache) (t : String) (v : Vec) : EmbedCache :=
  fun s => if s = t then some v else c s

/-- `LocalEmbeddingService.generateQueryEmbedding` (embeddings.ts lines 96-121):
return the cached vector, or call the backend, insert the vector into the cache and
return it.  The third component counts the backend invocations of the call. -/
def LocalEmbeddingService.generateQueryEmbedding (backend : String → Vec)
    (c : EmbedCache) (query : String) : Vec × EmbedCache × ℕ :=
  match c query with
  | some v => (v, c, 0)
  | none => (backend query, cacheSet c query (backend query), 1)

/-- One batch of `LocalEmbeddingService.generateEmbeddings` (embeddings.ts lines
52-72).  `Promise.all(batch.map(...))` starts every item synchronously, so each
item's cache check reads the cache as of the start of the batch; every miss calls
the backend and inserts its vector before the batch resolves. -/
def processBatch (backend : String → Vec) (c : EmbedCache) (batch : List String) :
    List Vec × EmbedCache :=
  (batch.map fun t => (c t).getD (backend t),
   fun s => if c s = none ∧ s ∈ batch then some (backend s) else c s)

/-- `LocalEmbeddingService.generateEmbeddings` (embeddings.ts lines 37-91): the texts
are processed front to back in slices of `BATCH_SIZE = 50`, threading the cache. -/
def LocalEmbeddingService.generateEmbeddings (backend : String → Vec) (c : EmbedCache)
    (texts : List String) : List Vec × EmbedCache :=
  if h : texts.isEmpty then ([], c)
  else
    let step := processBatch backend c (texts.take 50)
    let rest := LocalEmbeddingService.generateEmbeddings backend step.2 (texts.drop 50)
    (step.1 ++ rest.1, rest.2)
termination_by texts.length
decreasing_by
  simp only [List.length_drop]
  have hne : texts ≠ [] := by simpa using h
  have hl : 0 < texts.length := List.length_pos.mpr hne
  omega

/-- The batch decomposition used by `generateEmbeddings`: slices of
`BATCH_SIZE = 50`, front to back. -/
def batches50 (texts : List String) : List (List String) :=
  if h : texts.isEmpty then [] else texts.take 50 :: batches50 (texts.drop 50)
termination_by texts.length
decreasing_by
  simp only [List.length_drop]
  have hne : texts ≠ [] := by simpa using h
  have hl : 0 < texts.length := List.length_pos.mpr hne
  omega

/-- Sequential processing of a list of batches: one `processBatch` step per batch,
threading the cache. -/
def runBatches (backend : String → Vec) (c : EmbedCache) :
    List (List String) → List Vec × EmbedCache
  | [] => ([], c)
  | b :: bs =>
    let step := processBatch backend c b
    let rest := runBatches backend step.2 bs
    (step.1 ++ rest.1, rest.2)

/-- Shared state of `LocalEmbeddingService` relevant to its `initialize` method
(embeddings.ts lines 7-32): the `initialized` flag (`ready`) and the number of
backend loads (`pipeline(...)` calls) performed so far. -/
structure InitState where
  ready : Bool
  loads : ℕ
deriving DecidableEq

/-- Program counter of one caller of `initialize`: `start` = about to run the
`if (this.initialized) return` check; `loading` = past the check, suspended at the
awaits before/at the `pipeline(...)` call; `done` = returned. -/
inductive InitPc where
  | start
  | loading
  | done
deriving DecidableEq

/-- One cooperative step of a caller of `initialize` (embeddings.ts lines 13-32).
From `start`, the synchronous prefix runs the `initialized` check: if set, return;
otherwise proceed to the awaited load.  From `loading`, perform the backend load
and set the flag (lines 22-25).  The flag is only set after the load completes. -/
def initStep (s : InitState) (pc : InitPc) : InitState × InitPc :=
  match pc with
  | InitPc.start => if s.ready then (s, InitPc.done) else (s, InitPc.loading)
  | InitPc.loading => ({ ready := true, loads := s.loads + 1 }, InitPc.done)
  | InitPc.done => (s, InitPc.done)

/-- Run a schedule over several concurrent callers of `initialize`: each schedule
entry names a caller (an index into `pcs`) that takes one step; out-of-range
entries are no-ops.  This is the single-threaded cooperative interleaving of §5. -/
def initRun (s : InitState) (pcs : List InitPc) : List ℕ → InitState × List InitPc
  | [] => (s, pcs)
  | i :: sched =>
    match pcs[i]? with
    | none => initRun s pcs sched
    | some pc =>
      let r := initStep s pc
      initRun r.1 (pcs.set i r.2) sched

/-- Definition following the words of claim C1 (the spec's single-shot tier table),
for comparison with the code's `ragSearchSingle`: tier 1 uses threshold
`min(requestedThreshold, configuredDefault, 0.2)` with oversample ×2; tier 2 uses
threshold `0.1` with oversample ×1; the first non-empty tier's results are
returned. -/
def claimSearchSingle (collections : List String) (store : ℕ → List ChromaRow)
    (cfg : RagConfig) (req : QueryRequest) : Option (List SearchResult) :=
  let lim := jsOrNat req.limit cfg.maxResults
  let thr1 :=
    match req.threshold with
    | some t => min t (min cfg.similarityThreshold 0.2)
    | none => min cfg.similarityThreshold 0.2
  let t1 := (ChromaVectorDB.search collections req.collection store (lim * 2) thr1).1
  if t1.isEmpty then
    let t2 := (ChromaVectorDB.search collections req.collection store lim 0.1).1
    if t2.isEmpty then none else some (t2.take lim)
  else some (t1.take lim)

/-- Definition following the words of claim C2 for the streaming path, for
comparison with the code's `ragSearchStream`: identical tiers 1 and 2, but tier 3
returns the top-`limit` results with no filtering at all. -/
def claimSearchStream (collections : List String) (store : ℕ → List ChromaRow)
    (cfg : RagConfig) (req : QueryRequest) : Option (List SearchResult) :=
  let lim := jsOrNat req.limit cfg.maxResults
  let searchThreshold := jsOrQ req.threshold 0.1
  let t1 := (ChromaVectorDB.search collections req.collection store (lim * 5) searchThreshold).1
  if t1.isEmpty then
    let t2 := (ChromaVectorDB.search collections req.collection store (lim * 10) 0.05).1
    if t2.isEmpty then
      let t3 :=
        if req.collection ∈ collections then
          (List.insertionSort scoreGe ((store (lim * 2)).map mkSearchResult)).take lim
        else []
      if t3.isEmpty then none else some t3
    else some (t2.take lim)
  else some t1

/-- Block for one ranked result as described by claim C8: the label carries the
rank, the source name and the page (page defaulting to 0 when absent), followed by
the content. -/
def specBlock (idx : ℕ) (r : SearchResult) : String :=
  "[Source " ++ toString (idx + 1) ++ ": " ++
    (if r.metadata.source = "" then "Unknown document" else r.metadata.source) ++
    ", Page " ++ toString (r.metadata.page.getD 0) ++ "]\n" ++ r.content

/-- Context assembly as described by claim C8, as a direct recursion over the
ranked results: one block per result, the visible separator between consecutive
blocks, rank order preserved. -/
def contextAssemblerSpec : ℕ → List SearchResult → String
  | _, [] => ""
  | idx, [r] => specBlock idx r
  | idx, r :: rest => specBlock idx r ++ "\n\n---\n\n" ++ contextAssemblerSpec (idx + 1) rest

/-- Generic tier runner: try each `(dbLimit, threshold)` pair in order against the
vector store and return the first non-empty tier's results, truncated to `lim`;
`none` when every tier is empty. -/
def runTiers (collections : List String) (collectionName : String)
    (store : ℕ → List ChromaRow) (lim : ℕ) : List (ℕ × ℚ) → Option (List SearchResult)
  | [] => none
  | tier :: rest =>
    let r := (ChromaVectorDB.search collections collectionName store tier.1 tier.2).1
    if r.isEmpty then runTiers collections collectionName store lim rest
    else some (r.take lim)

/-- Invariant relating an embedding cache evolved by `generateEmbeddings` to the
cache `c₀` it started from: every entry is either untouched, or a newly inserted
backend vector for a text that was uncached in `c₀`. -/
def CacheEvolved (backend : String → Vec) (c₀ c : EmbedCache) : Prop :=
  ∀ t, c t = c₀ t ∨ (c₀ t = none ∧ c t = some (backend t))

/-- Concrete store row with distance 0.75 (similarity 0.25). -/
def rowQuarter : ChromaRow :=
  { id := "r25", document := some "chunk a", meta := none, distance := some 0.75 }

/-- Concrete store row with distance 0.85 (similarity 0.15). -/
def rowLow : ChromaRow :=
  { id := "r15", document := some "chunk b", meta := none, distance := some 0.85 }

/-- Concrete store row with distance 0.98 (similarity 0.02). -/
def rowTiny : ChromaRow :=
  { id := "r02", document := some "chunk c", meta := none, distance := some 0.98 }

/-- Concrete store row with distance 1.5 (similarity -0.5; cosine distance may
exceed 1). -/
def rowNeg : ChromaRow :=
  { id := "rneg", document := some "chunk d", meta := none, distance := some 1.5 }

/-- Concrete store row with distance 0.5 (similarity 0.5). -/
def rowHalf : ChromaRow :=
  { id := "r50", document := some "chunk e", meta := none, distance := some 0.5 }

/-! ### Helper lemmas about the search body -/

lemma searchPass1_eq_filter (threshold : ℚ) (rows : List ChromaRow) :
    searchPass1 threshold rows
      = (rows.map mkSearchResult).filter fun r => decide (threshold ≤ r.score) := by
  simp only [searchPass1]
  induction rows with
  | nil => rfl
  | cons row rest ih =>
    simp only [List.filterMap_cons, List.map_cons, List.filter_cons]
    by_cases hc : threshold ≤ (mkSearchResult row).score
    · simp [hc, ih]
    · simp [hc, ih]

lemma searchPass2_zero (limit : ℕ) (rows : List ChromaRow) :
    searchPass2 0 limit rows = (rows.take (limit * 10)).map mkSearchResult := by
  simp only [searchPass2]
  induction rows.take (limit * 10) with
  | nil => rfl
  | cons row rest ih => simpa using ih

lemma mem_searchBody {rows : List ChromaRow} {limit : ℕ} {threshold : ℚ}
    {r : SearchResult} (h : r ∈ searchBody rows limit threshold) :
    ∃ row ∈ rows, r = mkSearchResult row ∧ (threshold = 0 ∨ threshold ≤ r.score) := by
  simp only [searchBody] at h
  have h2 := List.mem_of_mem_take h
  have h3 := (List.perm_insertionSort scoreGe _).mem_iff.mp h2
  by_cases hcond : (searchPass1 threshold rows).isEmpty ∧ threshold ≤ 0.1
  · rw [if_pos hcond] at h3
    simp only [searchPass2, List.mem_filterMap] at h3
    obtain ⟨row, hrow, heq⟩ := h3
    by_cases hk : threshold = 0 ∨ threshold ≤ (mkSearchResult row).score
    · rw [if_pos hk] at heq
      obtain rfl := Option.some.inj heq
      exact ⟨row, List.mem_of_mem_take hrow, rfl, hk⟩
    · rw [if_neg hk] at heq
      exact absurd heq (by simp)
  · rw [if_neg hcond] at h3
    simp only [searchPass1, List.mem_filterMap] at h3
    obtain ⟨row, hrow, heq⟩ := h3
    by_cases hk : threshold ≤ (mkSearchResult row).score
    · rw [if_pos hk] at heq
      obtain rfl := Option.some.inj heq
      exact ⟨row, hrow, rfl, Or.inr hk⟩
    · rw [if_neg hk] at heq
      exact absurd heq (by simp)

lemma searchBody_sorted (rows : List ChromaRow) (limit : ℕ) (threshold : ℚ) :
    List.Pairwise (fun a b : SearchResult => b.score ≤ a.score)
      (searchBody rows limit threshold) := by
  simp only [searchBody]
  refine List.Pairwise.sublist (List.take_sublist _ _) ?_
  exact List.sorted_insertionSort scoreGe _

lemma searchBody_length_le (rows : List ChromaRow) (limit : ℕ) (threshold : ℚ) :
    (searchBody rows limit threshold).length ≤ limit := by
  simp only [searchBody]
  exact List.length_take_le _ _

/-- Claim C4: for every collection, query vector, limit and threshold, the list
returned by `search()` is sorted by score in descending order and its length never
exceeds the requested limit. -/
theorem C4_search_sorted_truncated (collections : List String) (collectionName : String)
    (store : ℕ → List ChromaRow) (limit : ℕ) (threshold : ℚ) :
    List.Pairwise (fun a b : SearchResult => b.score ≤ a.score)
      (ChromaVectorDB.search collections collectionName store limit threshold).1
    ∧ (ChromaVectorDB.search collections collectionName store limit threshold).1.length
        ≤ limit := by
  by_cases hc : collectionName ∈ collections
  · simp only [ChromaVectorDB.search, if_pos hc]
    exact ⟨searchBody_sorted _ _ _, searchBody_length_le _ _ _⟩
  · simp [ChromaVectorDB.search, if_neg hc]

/-- Claim C5 (amended): every result produced by `search()` has
`score = 1 - distance` for some row of the store's response; when the threshold is
positive every returned score is at least the threshold; and when every reported
distance is nonnegative every returned score is at most 1.  (With threshold 0,
results with negative score can be returned — see the counterexample.) -/
theorem C5_search_scores (collections : List String) (collectionName : String)
    (store : ℕ → List ChromaRow) (limit : ℕ) (threshold : ℚ) :
    ∀ r ∈ (ChromaVectorDB.search collections collectionName store limit threshold).1,
      (∃ row ∈ store (limit * 2), r.score = 1 - (row.distance.getD 0))
      ∧ (0 < threshold → threshold ≤ r.score)
      ∧ ((∀ row ∈ store (limit * 2), 0 ≤ row.distance.getD 0) → r.score ≤ 1) := by
  intro r hr
  by_cases hc : collectionName ∈ collections
  · rw [ChromaVectorDB.search, if_pos hc] at hr
    obtain ⟨row, hrow, rfl, hcond⟩ := mem_searchBody hr
    refine ⟨⟨row, hrow, rfl⟩, ?_, ?_⟩
    · intro hpos
      rcases hcond with h0 | hle
      · rw [h0] at hpos
        exact absurd hpos (lt_irrefl 0)
      · exact hle
    · intro hd
      have := hd row hrow
      calc (mkSearchResult row).score = 1 - row.distance.getD 0 := rfl
        _ ≤ 1 := sub_le_self 1 this
  · rw [ChromaVectorDB.search, if_neg hc] at hr
    exact absurd hr (by simp)

/-- Witness for C5 (amended) at a concrete input: one stored row with distance 0.5,
threshold 0.2, limit 1. -/
theorem C5_search_scores_witness :
    ((0.2 : ℚ) ≤ (mkSearchResult rowHalf).score) ∧ ((mkSearchResult rowHalf).score ≤ 1) := by
  have h := C5_search_scores ["c"] "c" (fun _ => [rowHalf]) 1 0.2 (mkSearchResult rowHalf)
    (by with_unfolding_all decide)
  refine ⟨h.2.1 (by norm_num), h.2.2 ?_⟩
  intro row hrow
  simp only [List.mem_singleton] at hrow
  subst hrow
  norm_num [rowHalf]

/-- Counterexample to C5 as stated: with threshold 0 (the streaming tier-3 call) and
a stored row at cosine distance 1.5, `search()` returns a result with score -0.5,
which is not in the interval [0,1] and is below no positive threshold. -/
theorem C5_counterexample :
    ((ChromaVectorDB.search ["c"] "c" (fun _ => [rowNeg]) 1 0).1.map SearchResult.score
        = [-(0.5 : ℚ)])
    ∧ ¬ ((0 : ℚ) ≤ -(0.5 : ℚ)) := by
  constructor
  · with_unfolding_all decide
  · norm_num

/-- Claim C6: calling `generateQueryEmbedding` twice with the same text returns
identical vectors, and across the two calls the backend is invoked at most once
(the second call is a cache hit). -/
theorem C6_embedQuery_idempotent_cached (backend : String → Vec) (c : EmbedCache)
    (q : String) :
    (LocalEmbeddingService.generateQueryEmbedding backend c q).1
      = (LocalEmbeddingService.generateQueryEmbedding backend
          (LocalEmbeddingService.generateQueryEmbedding backend c q).2.1 q).1
    ∧ (LocalEmbeddingService.generateQueryEmbedding backend c q).2.2
      + (LocalEmbeddingService.generateQueryEmbedding backend
          (LocalEmbeddingService.generateQueryEmbedding backend c q).2.1 q).2.2 ≤ 1 := by
  cases hq : c q with
  | some v => simp [LocalEmbeddingService.generateQueryEmbedding, hq]
  | none => simp [LocalEmbeddingService.generateQueryEmbedding, hq, cacheSet]

/-! ### Helper lemma for the initialization step machine -/

lemma initRun_no_load (sched : List ℕ) :
    ∀ (s : InitState) (pcs : List InitPc), s.ready = true →
      (∀ pc ∈ pcs, pc = InitPc.start ∨ pc = InitPc.done) →
      (initRun s pcs sched).1 = s := by
  induction sched with
  | nil => intro s pcs _ _; rfl
  | cons i rest ih =>
    intro s pcs hs hpcs
    cases hi : pcs[i]? with
    | none => simp only [initRun, hi]; exact ih s pcs hs hpcs
    | some pc =>
      have hmem : pc ∈ pcs := List.getElem?_mem hi
      have hset : ∀ pc' ∈ pcs.set i InitPc.done, pc' = InitPc.start ∨ pc' = InitPc.done := by
        intro pc' hp
        rcases List.mem_or_eq_of_mem_set hp with hmem' | rfl
        · exact hpcs pc' hmem'
        · exact Or.inr rfl
      rcases hpcs pc hmem with rfl | rfl
      · simp only [initRun, hi, initStep, hs, if_true]
        exact ih s _ hs hset
      · simp only [initRun, hi, initStep]
        exact ih s _ hs hset

/-- Claim C9 (amended): `initialize()` is sequentially idempotent — once the
`initialized` flag is set, any further schedule of fresh callers performs no load
(first conjunct; the second conjunct instantiates this for a caller that starts
after the first fully completed, giving one load in total).  However, callers that
interleave before the first load completes each perform a load: there is no
single-flight guard (third conjunct: two interleaved callers load twice). -/
theorem C9_initialization_amended :
    (∀ (sched : List ℕ) (s : InitState) (pcs : List InitPc), s.ready = true →
        (∀ pc ∈ pcs, pc = InitPc.start ∨ pc = InitPc.done) →
        (initRun s pcs sched).1.loads = s.loads)
    ∧ (initRun ⟨false, 0⟩ [InitPc.start, InitPc.start] [0, 0, 1, 1]).1.loads = 1
    ∧ (initRun ⟨false, 0⟩ [InitPc.start, InitPc.start] [0, 1, 0, 1]).1.loads = 2 := by
  refine ⟨fun sched s pcs hs hp => ?_, by decide, by decide⟩
  rw [initRun_no_load sched s pcs hs hp]

/-- Witness for C9 (amended): a caller arriving after initialization completed
(flag set, one load already performed) adds no load. -/
theorem C9_initialization_amended_witness :
    (initRun ⟨true, 1⟩ [InitPc.start] [0, 0]).1.loads = 1 :=
  C9_initialization_amended.1 [0, 0] ⟨true, 1⟩ [InitPc.start] rfl (by decide)

/-- Counterexample to C9 as stated: two callers that both pass the `initialized`
check before the first load completes (schedule A-check, B-check, A-load, B-load)
perform two backend loads, not one — `initialize()` has no single-flight guard. -/
theorem C9_initialization_counterexample :
    (initRun ⟨false, 0⟩ [InitPc.start, InitPc.start] [0, 1, 0, 1]).1.loads = 2
    ∧ (2 : ℕ) ≠ 1 := by
  decide

/-- Claim C10: a collection name absent from the in-memory collection-handle cache
makes `search()` return `[]` without contacting the store (no query issued) and
without an error, and a query against such a collection ends in the canonical
no-results response. -/
theorem C10_unknown_collection :
    (∀ (collections : List String) (collectionName : String)
        (store : ℕ → List ChromaRow) (limit : ℕ) (threshold : ℚ),
        collectionName ∉ collections →
        ChromaVectorDB.search collections collectionName store limit threshold = ([], []))
    ∧ (∀ (gen : String → String → String) (sysPrompt : String)
        (collections : List String) (store : ℕ → List ChromaRow)
        (cfg : RagConfig) (req : QueryRequest),
        req.collection ∉ collections →
        RAGChat.query gen sysPrompt collections store cfg req
          = { answer := noResultsMsg, sources := [] }) := by
  constructor
  · intro collections name store limit threshold h
    simp [ChromaVectorDB.search, h]
  · intro gen sysPrompt collections store cfg req h
    have hs : ∀ (limit : ℕ) (threshold : ℚ),
        ChromaVectorDB.search collections req.collection store limit threshold = ([], []) := by
      intro limit threshold
      simp [ChromaVectorDB.search, h]
    simp [RAGChat.query, ragSearchSingle, hs]

/-- Witness for C10 at a concrete input: empty handle cache, collection "docs". -/
theorem C10_unknown_collection_witness :
    ChromaVectorDB.search [] "docs" (fun _ => [rowHalf]) 3 0.2 = ([], [])
    ∧ RAGChat.query (fun _ _ => "ans") "sys" [] (fun _ => [rowHalf]) ⟨5, 0.3⟩
        ⟨"q", "docs", none, none⟩ = { answer := noResultsMsg, sources := [] } :=
  ⟨C10_unknown_collection.1 [] "docs" (fun _ => [rowHalf]) 3 0.2 (by simp),
   C10_unknown_collection.2 (fun _ _ => "ans") "sys" [] (fun _ => [rowHalf]) ⟨5, 0.3⟩
     ⟨"q", "docs", none, none⟩ (by simp)⟩

/-- Claim C3: when every retrieval tier yields zero results, the single-shot path
returns the canonical could-not-find message with an empty sources list (a normal
return, not an error), and the streaming path yields exactly the one fragment
containing that message and ends. -/
theorem C3_no_results_canonical (gen : String → String → String)
    (genStream : String → String → List String) (sysPrompt : String)
    (collections : List String) (store : ℕ → List ChromaRow)
    (cfg : RagConfig) (req : QueryRequest) :
    ((ChromaVectorDB.search collections req.collection store
        ((jsOrNat req.limit cfg.maxResults) * 2)
        (jsOrQ req.threshold (min cfg.similarityThreshold 0.2))).1 = [] →
      (ChromaVectorDB.search collections req.collection store
        (jsOrNat req.limit cfg.maxResults) 0.1).1 = [] →
      RAGChat.query gen sysPrompt collections store cfg req
        = { answer := noResultsMsg, sources := [] })
    ∧ ((ChromaVectorDB.search collections req.collection store
          ((jsOrNat req.limit cfg.maxResults) * 5) (jsOrQ req.threshold 0.1)).1 = [] →
        (ChromaVectorDB.search collections req.collection store
          ((jsOrNat req.limit cfg.maxResults) * 10) 0.05).1 = [] →
        (ChromaVectorDB.search collections req.collection store
          (jsOrNat req.limit cfg.maxResults) 0).1 = [] →
        RAGChat.queryStream genStream sysPrompt collections store cfg req
          = [noResultsMsg]) := by
  constructor
  · intro h1 h2
    simp [RAGChat.query, ragSearchSingle, h1, h2]
  · intro h1 h2 h3
    simp [RAGChat.queryStream, ragSearchStream, h1, h2, h3]

/-- Witness for C3 at a concrete input: empty handle cache, so every tier is
empty. -/
theorem C3_no_results_canonical_witness :
    RAGChat.query (fun _ _ => "ans") "sys" [] (fun _ => []) ⟨5, 0.3⟩
        ⟨"q", "c", none, none⟩ = { answer := noResultsMsg, sources := [] }
    ∧ RAGChat.queryStream (fun _ _ => ["x"]) "sys" [] (fun _ => []) ⟨5, 0.3⟩
        ⟨"q", "c", none, none⟩ = [noResultsMsg] := by
  have h := C3_no_results_canonical (fun _ _ => "ans") (fun _ _ => ["x"]) "sys" []
    (fun _ => []) ⟨5, 0.3⟩ ⟨"q", "c", none, none⟩
  exact ⟨h.1 (by with_unfolding_all decide) (by with_unfolding_all decide),
    h.2 (by with_unfolding_all decide) (by with_unfolding_all decide)
      (by with_unfolding_all decide)⟩

/-- Claim C1 (amended): for every single-shot query the retriever first searches
with threshold `requestedThreshold` when provided and nonzero, otherwise
`min(configuredDefault, 0.2)`, with oversample factor 2; if that tier yields zero
results it retries with threshold 0.1 and oversample factor 1; the first non-empty
tier's results, truncated to the limit, are returned (first conjunct, as a
tier-table run).  A query with no requested threshold under the configured default
0.3 that misses tier 1 but has a hit at threshold 0.1 surfaces that hit rather
than an empty-result answer (second conjunct). -/
theorem C1_single_shot_tiers :
    (∀ (collections : List String) (store : ℕ → List ChromaRow)
        (cfg : RagConfig) (req : QueryRequest),
      (ragSearchSingle collections store cfg req).1
        = runTiers collections req.collection store (jsOrNat req.limit cfg.maxResults)
            [((jsOrNat req.limit cfg.maxResults) * 2,
                jsOrQ req.threshold (min cfg.similarityThreshold 0.2)),
             (jsOrNat req.limit cfg.maxResults, 0.1)])
    ∧ (∀ (collections : List String) (store : ℕ → List ChromaRow)
        (cfg : RagConfig) (req : QueryRequest),
      req.threshold = none → cfg.similarityThreshold = 0.3 →
      0 < jsOrNat req.limit cfg.maxResults →
      (ChromaVectorDB.search collections req.collection store
          ((jsOrNat req.limit cfg.maxResults) * 2) 0.2).1 = [] →
      (ChromaVectorDB.search collections req.collection store
          (jsOrNat req.limit cfg.maxResults) 0.1).1 ≠ [] →
      ∃ rs, (ragSearchSingle collections store cfg req).1 = some rs ∧ rs ≠ []) := by
  constructor
  · intro collections store cfg req
    simp only [ragSearchSingle, runTiers]
    by_cases h1 : (ChromaVectorDB.search collections req.collection store
        ((jsOrNat req.limit cfg.maxResults) * 2)
        (jsOrQ req.threshold (min cfg.similarityThreshold 0.2))).1.isEmpty
    · by_cases h2 : (ChromaVectorDB.search collections req.collection store
          (jsOrNat req.limit cfg.maxResults) 0.1).1.isEmpty
      · simp [h1, h2]
      · simp [h1, h2]
    · simp [h1]
  · intro collections store cfg req hthr hcfg hlim h1 h2
    have heff : jsOrQ req.threshold (min cfg.similarityThreshold 0.2) = 0.2 := by
      rw [hthr, hcfg]
      simp only [jsOrQ]
      norm_num
    refine ⟨(ChromaVectorDB.search collections req.collection store
        (jsOrNat req.limit cfg.maxResults) 0.1).1.take (jsOrNat req.limit cfg.maxResults),
      ?_, ?_⟩
    · simp only [ragSearchSingle, heff]
      rw [h1]
      simp [List.isEmpty_iff, h2]
    · intro hnil
      rw [List.take_eq_nil_iff] at hnil
      rcases hnil with h0 | h0
      · omega
      · exact h2 h0

/-- Witness for C1 (amended) at a concrete input: one stored row at similarity
0.15, no requested threshold, configured default 0.3, limit 1 — tier 1 (threshold
0.2) is empty, tier 2 (threshold 0.1) surfaces the hit. -/
theorem C1_single_shot_tiers_witness :
    (ragSearchSingle ["c"] (fun _ => [rowLow]) ⟨5, 0.3⟩ ⟨"q", "c", some 1, none⟩).1
      = runTiers ["c"] "c" (fun _ => [rowLow]) 1 [(2, 0.2), (1, 0.1)]
    ∧ ∃ rs, (ragSearchSingle ["c"] (fun _ => [rowLow]) ⟨5, 0.3⟩ ⟨"q", "c", some 1, none⟩).1
        = some rs ∧ rs ≠ [] := by
  constructor
  · exact (C1_single_shot_tiers.1 ["c"] (fun _ => [rowLow]) ⟨5, 0.3⟩
      ⟨"q", "c", some 1, none⟩).trans (by with_unfolding_all decide)
  · exact C1_single_shot_tiers.2 ["c"] (fun _ => [rowLow]) ⟨5, 0.3⟩
      ⟨"q", "c", some 1, none⟩ rfl rfl (by decide) (by with_unfolding_all decide)
      (by with_unfolding_all decide)

/-- Counterexample to C1 as stated: with requested threshold 0.5 (configured
default 0.3), the code's first search uses threshold 0.5, not
`min(0.5, 0.3, 0.2) = 0.2`, and the end-to-end result differs from the claimed
tier policy: the code falls through to the 0.1 tier and returns two results where
the claimed policy's tier 1 returns one. -/
theorem C1_counterexample :
    (ragSearchSingle ["c"] (fun _ => [rowQuarter, rowLow]) ⟨5, 0.3⟩
        ⟨"q", "c", some 2, some 0.5⟩).2.head? = some (4, 0.5)
    ∧ min (0.5 : ℚ) (min 0.3 0.2) = 0.2
    ∧ ((0.5 : ℚ) ≠ 0.2)
    ∧ (ragSearchSingle ["c"] (fun _ => [rowQuarter, rowLow]) ⟨5, 0.3⟩
        ⟨"q", "c", some 2, some 0.5⟩).1
      ≠ claimSearchSingle ["c"] (fun _ => [rowQuarter, rowLow]) ⟨5, 0.3⟩
        ⟨"q", "c", some 2, some 0.5⟩ := by
  refine ⟨?_, ?_, ?_, ?_⟩ <;> with_unfolding_all decide

/-- Claim C2 (amended): the streaming retriever evaluates three tiers in order and
returns the first non-empty tier's results — tier 1 with threshold
`requestedThreshold`-or-0.1 and oversample ×5 (returned untruncated), tier 2 with
threshold 0.05 and oversample ×10 (truncated to the limit), tier 3 with threshold 0
and oversample ×1 (first conjunct).  At threshold 0 the search is not unfiltered:
it keeps the top-limit results with similarity ≥ 0, and only when no row has
similarity ≥ 0 does it return the top-limit rows unfiltered (second conjunct). -/
theorem C2_streaming_tiers :
    (∀ (collections : List String) (store : ℕ → List ChromaRow)
        (cfg : RagConfig) (req : QueryRequest),
      ((ChromaVectorDB.search collections req.collection store
          ((jsOrNat req.limit cfg.maxResults) * 5) (jsOrQ req.threshold 0.1)).1 ≠ [] →
        ragSearchStream collections store cfg req
          = some (ChromaVectorDB.search collections req.collection store
              ((jsOrNat req.limit cfg.maxResults) * 5) (jsOrQ req.threshold 0.1)).1)
      ∧ ((ChromaVectorDB.search collections req.collection store
          ((jsOrNat req.limit cfg.maxResults) * 5) (jsOrQ req.threshold 0.1)).1 = [] →
         (ChromaVectorDB.search collections req.collection store
          ((jsOrNat req.limit cfg.maxResults) * 10) 0.05).1 ≠ [] →
        ragSearchStream collections store cfg req
          = some ((ChromaVectorDB.search collections req.collection store
              ((jsOrNat req.limit cfg.maxResults) * 10) 0.05).1.take
                (jsOrNat req.limit cfg.maxResults)))
      ∧ ((ChromaVectorDB.search collections req.collection store
          ((jsOrNat req.limit cfg.maxResults) * 5) (jsOrQ req.threshold 0.1)).1 = [] →
         (ChromaVectorDB.search collections req.collection store
          ((jsOrNat req.limit cfg.maxResults) * 10) 0.05).1 = [] →
        ragSearchStream collections store cfg req
          = (if h3 : (ChromaVectorDB.search collections req.collection store
              (jsOrNat req.limit cfg.maxResults) 0).1 = [] then none
             else some (ChromaVectorDB.search collections req.collection store
              (jsOrNat req.limit cfg.maxResults) 0).1)))
    ∧ (∀ (collections : List String) (collectionName : String)
        (store : ℕ → List ChromaRow) (limit : ℕ),
      collectionName ∈ collections →
      ChromaVectorDB.search collections collectionName store limit 0
        = (if ((store (limit * 2)).map mkSearchResult).filter
              (fun r => decide ((0 : ℚ) ≤ r.score)) = [] then
             (List.insertionSort scoreGe
               (((store (limit * 2)).take (limit * 10)).map mkSearchResult)).take limit
           else
             (List.insertionSort scoreGe
               (((store (limit * 2)).map mkSearchResult).filter
                 (fun r => decide ((0 : ℚ) ≤ r.score)))).take limit,
           [limit * 2])) := by
  constructor
  · intro collections store cfg req
    refine ⟨?_, ?_, ?_⟩
    · intro h1
      simp [ragSearchStream, List.isEmpty_iff, h1]
    · intro h1 h2
      simp [ragSearchStream, List.isEmpty_iff, h1, h2]
    · intro h1 h2
      by_cases h3 : (ChromaVectorDB.search collections req.collection store
          (jsOrNat req.limit cfg.maxResults) 0).1 = []
      · simp [ragSearchStream, List.isEmpty_iff, h1, h2, h3]
      · simp [ragSearchStream, List.isEmpty_iff, h1, h2, h3]
  · intro collections collectionName store limit hmem
    rw [ChromaVectorDB.search, if_pos hmem]
    have hbody : searchBody (store (limit * 2)) limit 0
        = (if ((store (limit * 2)).map mkSearchResult).filter
              (fun r => decide ((0 : ℚ) ≤ r.score)) = [] then
             (List.insertionSort scoreGe
               (((store (limit * 2)).take (limit * 10)).map mkSearchResult)).take limit
           else
             (List.insertionSort scoreGe
               (((store (limit * 2)).map mkSearchResult).filter
                 (fun r => decide ((0 : ℚ) ≤ r.score)))).take limit) := by
      simp only [searchBody, searchPass1_eq_filter, searchPass2_zero]
      have h01 : ((0 : ℚ) ≤ 0.1) := by norm_num
      by_cases hf : ((store (limit * 2)).map mkSearchResult).filter
          (fun r => decide ((0 : ℚ) ≤ r.score)) = []
      · simp [hf, h01, List.isEmpty_iff]
      · simp [hf, h01, List.isEmpty_iff]
    rw [hbody]

/-- Witness for C2 (amended) at a concrete input: one stored row at similarity 0.5,
no requested threshold, limit 1 — tier 1 (threshold 0.1) already hits. -/
theorem C2_streaming_tiers_witness :
    ragSearchStream ["c"] (fun _ => [rowHalf]) ⟨5, 0.3⟩ ⟨"q", "c", some 1, none⟩
      = some [mkSearchResult rowHalf] := by
  have h := (C2_streaming_tiers.1 ["c"] (fun _ => [rowHalf]) ⟨5, 0.3⟩
    ⟨"q", "c", some 1, none⟩).1 (by with_unfolding_all decide)
  exact h.trans (by with_unfolding_all decide)

/-- Counterexample to C2 as stated: with stored rows at similarities 0.02 and -0.5
(distances 0.98 and 1.5) and limit 2, tiers 1 and 2 are empty and the code's tier 3
filters at similarity ≥ 0, returning only the 0.02 row — not the top-limit results
without filtering, which would also include the -0.5 row as the claim states. -/
theorem C2_counterexample :
    ragSearchStream ["c"] (fun _ => [rowTiny, rowNeg]) ⟨5, 0.3⟩ ⟨"q", "c", some 2, none⟩
      = some [mkSearchResult rowTiny]
    ∧ claimSearchStream ["c"] (fun _ => [rowTiny, rowNeg]) ⟨5, 0.3⟩ ⟨"q", "c", some 2, none⟩
      = some [mkSearchResult rowTiny, mkSearchResult rowNeg]
    ∧ (some [mkSearchResult rowTiny] : Option (List SearchResult))
      ≠ some [mkSearchResult rowTiny, mkSearchResult rowNeg] := by
  refine ⟨?_, ?_, ?_⟩ <;> with_unfolding_all decide

/-! ### Helper lemmas about the embedding cache and the batch loop -/

lemma cacheEvolved_getD {backend : String → Vec} {c₀ c : EmbedCache}
    (h : CacheEvolved backend c₀ c) (t : String) :
    (c t).getD (backend t) = (c₀ t).getD (backend t) := by
  rcases h t with h' | ⟨h1, h2⟩
  · rw [h']
  · rw [h1, h2]
    rfl

lemma processBatch_fst {backend : String → Vec} {c₀ c : EmbedCache}
    (h : CacheEvolved backend c₀ c) (b : List String) :
    (processBatch backend c b).1 = b.map fun t => (c₀ t).getD (backend t) := by
  simp only [processBatch]
  exact List.map_congr_left fun t _ => cacheEvolved_getD h t

lemma processBatch_snd_evolved {backend : String → Vec} {c₀ c : EmbedCache}
    (h : CacheEvolved backend c₀ c) (b : List String) :
    CacheEvolved backend c₀ (processBatch backend c b).2 := by
  intro t
  simp only [processBatch]
  by_cases hc : c t = none ∧ t ∈ b
  · rw [if_pos hc]
    rcases h t with h' | ⟨h1, _⟩
    · exact Or.inr ⟨by rw [← h']; exact hc.1, rfl⟩
    · exact Or.inr ⟨h1, rfl⟩
  · rw [if_neg hc]
    exact h t

lemma processBatch_snd_mem {backend : String → Vec} {c : EmbedCache}
    {b : List String} {t : String} (ht : t ∈ b) :
    (processBatch backend c b).2 t ≠ none := by
  simp only [processBatch]
  by_cases hc : c t = none ∧ t ∈ b
  · rw [if_pos hc]
    simp
  · rw [if_neg hc]
    intro hnone
    exact hc ⟨hnone, ht⟩

lemma processBatch_snd_mono {backend : String → Vec} {c : EmbedCache}
    {b : List String} {t : String} {v : Vec} (hv : c t = some v) :
    (processBatch backend c b).2 t = some v := by
  simp only [processBatch]
  rw [if_neg (by simp [hv])]
  exact hv

lemma generateEmbeddings_master (backend : String → Vec) (c₀ : EmbedCache) :
    ∀ (n : ℕ) (texts : List String), texts.length ≤ n → ∀ (c : EmbedCache),
      CacheEvolved backend c₀ c →
      (LocalEmbeddingService.generateEmbeddings backend c texts).1
          = texts.map (fun t => (c₀ t).getD (backend t))
      ∧ CacheEvolved backend c₀ (LocalEmbeddingService.generateEmbeddings backend c texts).2
      ∧ (∀ t ∈ texts, (LocalEmbeddingService.generateEmbeddings backend c texts).2 t ≠ none)
      ∧ (∀ (t : String) (v : Vec), c t = some v →
          (LocalEmbeddingService.generateEmbeddings backend c texts).2 t = some v) := by
  intro n
  induction n with
  | zero =>
    intro texts hlen c hc
    have hnil : texts = [] := List.length_eq_zero.mp (Nat.le_zero.mp hlen)
    subst hnil
    rw [LocalEmbeddingService.generateEmbeddings]
    exact ⟨by simp, by simpa using hc, by simp, fun t v hv => by simpa using hv⟩
  | succ n ih =>
    intro texts hlen c hc
    by_cases he : texts.isEmpty
    · have hnil : texts = [] := List.isEmpty_iff.mp he
      subst hnil
      rw [LocalEmbeddingService.generateEmbeddings]
      exact ⟨by simp, by simpa using hc, by simp, fun t v hv => by simpa using hv⟩
    · rw [LocalEmbeddingService.generateEmbeddings, dif_neg he]
      dsimp only
      have hpos : 0 < texts.length := List.length_pos.mpr (by simpa using he)
      have hlen' : (texts.drop 50).length ≤ n := by
        simp only [List.length_drop]
        omega
      have hev : CacheEvolved backend c₀ (processBatch backend c (texts.take 50)).2 :=
        processBatch_snd_evolved hc _
      obtain ⟨ih1, ih2, ih3, ih4⟩ := ih (texts.drop 50) hlen' _ hev
      refine ⟨?_, ih2, ?_, ?_⟩
      · rw [processBatch_fst hc, ih1, ← List.map_append, List.take_append_drop]
      · intro t ht
        rw [← List.take_append_drop 50 texts] at ht
        rcases List.mem_append.mp ht with htk | hdr
        · have hne : (processBatch backend c (texts.take 50)).2 t ≠ none :=
            processBatch_snd_mem htk
          cases hsome : (processBatch backend c (texts.take 50)).2 t with
          | none => exact absurd hsome hne
          | some v =>
            have := ih4 t v hsome
            rw [this]
            simp
        · exact ih3 t hdr
      · intro t v hv
        exact ih4 t v (processBatch_snd_mono hv)

lemma generateEmbeddings_eq_runBatches (backend : String → Vec) :
    ∀ (n : ℕ) (texts : List String), texts.length ≤ n → ∀ (c : EmbedCache),
      LocalEmbeddingService.generateEmbeddings backend c texts
        = runBatches backend c (batches50 texts) := by
  intro n
  induction n with
  | zero =>
    intro texts hlen c
    have hnil : texts = [] := List.length_eq_zero.mp (Nat.le_zero.mp hlen)
    subst hnil
    rw [LocalEmbeddingService.generateEmbeddings, batches50]
    simp [runBatches]
  | succ n ih =>
    intro texts hlen c
    by_cases he : texts.isEmpty
    · have hnil : texts = [] := List.isEmpty_iff.mp he
      subst hnil
      rw [LocalEmbeddingService.generateEmbeddings, batches50]
      simp [runBatches]
    · rw [LocalEmbeddingService.generateEmbeddings, batches50, dif_neg he, dif_neg he]
      have hpos : 0 < texts.length := List.length_pos.mpr (by simpa using he)
      have hlen' : (texts.drop 50).length ≤ n := by
        simp only [List.length_drop]
        omega
      dsimp only [runBatches]
      rw [ih (texts.drop 50) hlen' _]

lemma batches50_length_le :
    ∀ (n : ℕ) (texts : List String), texts.length ≤ n →
      ∀ b ∈ batches50 texts, b.length ≤ 50 := by
  intro n
  induction n with
  | zero =>
    intro texts hlen b hb
    have hnil : texts = [] := List.length_eq_zero.mp (Nat.le_zero.mp hlen)
    subst hnil
    rw [batches50] at hb
    simp at hb
  | succ n ih =>
    intro texts hlen b hb
    by_cases he : texts.isEmpty
    · rw [batches50, dif_pos he] at hb
      simp at hb
    · rw [batches50, dif_neg he] at hb
      have hpos : 0 < texts.length := List.length_pos.mpr (by simpa using he)
      have hlen' : (texts.drop 50).length ≤ n := by
        simp only [List.length_drop]
        omega
      rcases List.mem_cons.mp hb with rfl | hb'
      · exact List.length_take_le _ _
      · exact ih (texts.drop 50) hlen' b hb'

lemma batches50_flatten :
    ∀ (n : ℕ) (texts : List String), texts.length ≤ n →
      (batches50 texts).flatten = texts := by
  intro n
  induction n with
  | zero =>
    intro texts hlen
    have hnil : texts = [] := List.length_eq_zero.mp (Nat.le_zero.mp hlen)
    subst hnil
    rw [batches50]
    simp
  | succ n ih =>
    intro texts hlen
    by_cases he : texts.isEmpty
    · have hnil : texts = [] := List.isEmpty_iff.mp he
      subst hnil
      rw [batches50]
      simp
    · rw [batches50, dif_neg he]
      have hpos : 0 < texts.length := List.length_pos.mpr (by simpa using he)
      have hlen' : (texts.drop 50).length ≤ n := by
        simp only [List.length_drop]
        omega
      rw [List.flatten_cons, ih (texts.drop 50) hlen', List.take_append_drop]

/-- Claim C7: `generateEmbeddings` returns one vector per input text in input
order, each the cached vector or else the backend's (first conjunct); inserts every
computed vector into the cache before returning (second conjunct); and processes
the texts as a sequence of batches of at most 50, each batch cache-checked against
the batch-start cache with its misses computed together (remaining conjuncts). -/
theorem C7_generateEmbeddings_spec (backend : String → Vec) (c : EmbedCache)
    (texts : List String) :
    (LocalEmbeddingService.generateEmbeddings backend c texts).1
        = texts.map (fun t => (c t).getD (backend t))
    ∧ (∀ t ∈ texts,
        (LocalEmbeddingService.generateEmbeddings backend c texts).2 t
          = some ((c t).getD (backend t)))
    ∧ LocalEmbeddingService.generateEmbeddings backend c texts
        = runBatches backend c (batches50 texts)
    ∧ (∀ b ∈ batches50 texts, b.length ≤ 50)
    ∧ (batches50 texts).flatten = texts := by
  obtain ⟨h1, h2, h3, h4⟩ := generateEmbeddings_master backend c texts.length texts
    le_rfl c (fun t => Or.inl rfl)
  refine ⟨h1, ?_, generateEmbeddings_eq_runBatches backend texts.length texts le_rfl c,
    batches50_length_le texts.length texts le_rfl,
    batches50_flatten texts.length texts le_rfl⟩
  intro t ht
  have hne := h3 t ht
  rcases h2 t with heq | ⟨h0, hsome⟩
  · cases hct : c t with
    | none => exact absurd (heq.trans hct) hne
    | some v =>
      rw [heq, hct]
      rfl
  · rw [hsome, h0]
    rfl

/-- Witness for C7 at a concrete input: empty cache, constant backend, two texts. -/
theorem C7_generateEmbeddings_spec_witness :
    (LocalEmbeddingService.generateEmbeddings (fun _ => [1]) (fun _ => none)
        ["a", "b"]).1 = [[1], [1]]
    ∧ (LocalEmbeddingService.generateEmbeddings (fun _ => [1]) (fun _ => none)
        ["a", "b"]).2 "a" = some [1] := by
  have h := C7_generateEmbeddings_spec (fun _ => [1]) (fun _ => none) ["a", "b"]
  constructor
  · exact h.1.trans (by simp)
  · have := h.2.1 "a" (by simp)
    simpa using this

/-! ### Helper lemma for context assembly -/

lemma joinSep_enumFrom_specBlock (n : ℕ) (l : List SearchResult) :
    joinSep "\n\n---\n\n" ((List.enumFrom n l).map fun p => specBlock p.1 p.2)
      = contextAssemblerSpec n l := by
  induction l generalizing n with
  | nil => rfl
  | cons r rest ih =>
    cases rest with
    | nil => rfl
    | cons r2 rest2 =>
      have hh := ih (n + 1)
      show _ = specBlock n r ++ "\n\n---\n\n" ++ contextAssemblerSpec (n + 1) (r2 :: rest2)
      rw [← hh]
      rfl

/-- Claim C8: context assembly produces one block per result labeled with its
source name and page (page defaulting to 0 when absent) followed by its content,
joined with the visible separator in the retriever's rank order (first conjunct,
equality with the direct per-rank recursion), and is a pure deterministic function
of its input (second conjunct). -/
theorem C8_formatContext_spec (results : List SearchResult) :
    RAGChat.formatContext results = contextAssemblerSpec 0 results
    ∧ ∀ other : List SearchResult, other = results →
        RAGChat.formatContext other = RAGChat.formatContext results := by
  constructor
  · simp only [RAGChat.formatContext, List.enum_eq_enumFrom]
    exact joinSep_enumFrom_specBlock 0 results
  · intro other h
    rw [h]

/-- Witness for C8 at concrete inputs. -/
theorem C8_formatContext_spec_witness :
    RAGChat.formatContext [mkSearchResult rowHalf]
      = contextAssemblerSpec 0 [mkSearchResult rowHalf]
    ∧ RAGChat.formatContext [] = RAGChat.formatContext [] :=
  ⟨(C8_formatContext_spec [mkSearchResult rowHalf]).1,
   (C8_formatContext_spec []).2 [] rfl⟩
